import Mathlib

/-!
# Lattice Boltzmann (D2Q9) engine — verification development

A shallow embedding of the Rust lattice-Boltzmann engine (`src/lib.rs`) and
proofs about it.  The `f64` values of the source are modelled as exact
rationals (`ℚ`); all arithmetic performed by the code is `+ - * /`, so every
formula of the source transliterates directly.  The two ping-pong cell
buffers (`Vec<Cell>`) are modelled as total functions `Nat → Cell`; the
vectors have fixed length `width * height` from construction on (the code
never reallocates), and out-of-range `Vec` indexing, which panics in Rust,
is modelled by `Option` where an operation can actually reach it
(`set_cell`).  Rust `u32` subtraction appears only as `width - 1`,
`height - 1`, `width - 2` on dimensions that are at least 2 wherever the
corresponding claims apply, so `Nat` truncated subtraction agrees with it
there.
-/

set_option linter.unusedVariables false

namespace LBM

/-- The three lattice weights, `static FOUR9THS / ONE9TH / ONE36TH`. -/
def FOUR9THS : ℚ := 4 / 9

/-- Axis-direction weight `1/9`. -/
def ONE9TH : ℚ := 1 / 9

/-- Diagonal-direction weight `1/36`. -/
def ONE36TH : ℚ := 1 / 36

/-- `struct Cell`: the nine D2Q9 distribution components
(center, east, north, west, south, northeast, northwest, southwest,
southeast). -/
@[ext]
structure Cell where
  c : ℚ
  e : ℚ
  n : ℚ
  w : ℚ
  s : ℚ
  ne : ℚ
  nw : ℚ
  sw : ℚ
  se : ℚ
deriving DecidableEq, Repr

/-- `Cell::default()`: all nine components zero. -/
def Cell.default : Cell := ⟨0, 0, 0, 0, 0, 0, 0, 0, 0⟩

/-- `Cell::rho`: density, the sum of all nine components. -/
def Cell.rho (cell : Cell) : ℚ :=
  cell.c + cell.e + cell.n + cell.w + cell.s + cell.ne + cell.nw + cell.sw + cell.se

/-- `Cell::ux`: x-velocity, guarded against zero density. -/
def Cell.ux (cell : Cell) : ℚ :=
  let rho := cell.rho
  if rho ≠ 0 then (cell.e + cell.ne + cell.se - cell.w - cell.nw - cell.sw) / rho else 0

/-- `Cell::uy`: y-velocity, guarded against zero density. -/
def Cell.uy (cell : Cell) : ℚ :=
  let rho := cell.rho
  if rho ≠ 0 then (cell.s + cell.sw + cell.se - cell.n - cell.ne - cell.nw) / rho else 0

/-- `enum DrawMode`. -/
inductive DrawMode where
  | Speed
  | XVelocity
  | YVelocity
  | Density
  | Curl
  | Nothing
deriving DecidableEq, Repr

/-- `struct Config`.  `width`, `height` are `u32` and `steps_per_frame` is
`u8` in the source; the claims use small values far from wraparound, so they
are modelled as `Nat`. -/
structure Config where
  width : Nat
  height : Nat
  steps_per_frame : Nat
  flow_speed : ℚ
  draw_mode : DrawMode
  omega : ℚ

/-- `Config::update_viscosity`: recomputes `omega = 1 / (3 * viscosity + 0.5)`. -/
def Config.update_viscosity (cfg : Config) (viscosity : ℚ) : Config :=
  { cfg with omega := 1 / (3 * viscosity + 0.5) }

/-- `Config::new`: builds the record with `omega = 0.0`, then calls
`update_viscosity`. -/
def Config.new (width height steps_per_frame : Nat) (flow_speed : ℚ)
    (draw_mode : DrawMode) (viscosity : ℚ) : Config :=
  Config.update_viscosity
    { width := width, height := height, steps_per_frame := steps_per_frame,
      flow_speed := flow_speed, draw_mode := draw_mode, omega := 0 }
    viscosity

/-- A cell buffer, indexed by the flat row-major index. -/
abbrev Grid := Nat → Cell

/-- `struct Lattice`.  `barrier_set` is a `HashSet<usize>` in the source; it
is modelled as the list of its members (every write the code performs with it
is order-independent, and in fact no operation of the source ever inserts
into it, so it is `[]` in every state the program constructs). -/
structure Lattice where
  config : Config
  cells_one : Grid
  cells_two : Grid
  use_one : Bool
  density : Nat → ℚ
  ux : Nat → ℚ
  uy : Nat → ℚ
  barrier_set : List Nat
  barrier : List Nat
  curl : Nat → ℚ
  flow_particles_x : List ℚ
  flow_particles_y : List ℚ

/-- `Lattice::cells`: the currently active buffer, selected by `use_one`. -/
def Lattice.cells (L : Lattice) : Grid :=
  if L.use_one then L.cells_one else L.cells_two

/-- Replace the active buffer (the target of every in-place cell write of the
source). -/
def Lattice.setActive (L : Lattice) (g : Grid) : Lattice :=
  if L.use_one then { L with cells_one := g } else { L with cells_two := g }

/-- The equilibrium cell computed by `Lattice::init_flow` (lines 192–208).
Note the negated y-velocity: `uy3 = 3.0 * -uy`, `uy2 = -uy * -uy`,
`uxuy2 = 2.0 * ux * -uy`. -/
def initEquilCell (uxv uyv rho : ℚ) : Cell :=
  let ux3 := 3 * uxv
  let uy3 := 3 * -uyv
  let ux2 := uxv * uxv
  let uy2 := -uyv * -uyv
  let uxuy2 := 2 * uxv * -uyv
  let u2 := ux2 + uy2
  let u215 := 1.5 * u2
  { c := FOUR9THS * rho * (1 - u215)
    e := ONE9TH * rho * (1 + ux3 + 4.5 * ux2 - u215)
    n := ONE9TH * rho * (1 + uy3 + 4.5 * uy2 - u215)
    w := ONE9TH * rho * (1 - ux3 + 4.5 * ux2 - u215)
    s := ONE9TH * rho * (1 - uy3 + 4.5 * uy2 - u215)
    ne := ONE36TH * rho * (1 + ux3 + uy3 + 4.5 * (u2 + uxuy2) - u215)
    nw := ONE36TH * rho * (1 - ux3 + uy3 + 4.5 * (u2 - uxuy2) - u215)
    sw := ONE36TH * rho * (1 - ux3 - uy3 + 4.5 * (u2 + uxuy2) - u215)
    se := ONE36TH * rho * (1 + ux3 - uy3 + 4.5 * (u2 - uxuy2) - u215) }

/-- `Lattice::init_flow`: writes `rho`, `ux`, `uy` and the equilibrium cell
into every non-barrier index below `width * height`.  The loop iterations are
independent (iteration `i` writes only index `i`), so the loop is modelled
pointwise. -/
def Lattice.init_flow (L : Lattice) (uxv uyv rho : ℚ) : Lattice :=
  let size := L.config.width * L.config.height
  let ec := initEquilCell uxv uyv rho
  let L' := { L with
    density := fun i => if i < size ∧ i ∉ L.barrier_set then rho else L.density i
    ux := fun i => if i < size ∧ i ∉ L.barrier_set then uxv else L.ux i
    uy := fun i => if i < size ∧ i ∉ L.barrier_set then uyv else L.uy i }
  L'.setActive (fun i => if i < size ∧ i ∉ L.barrier_set then ec else L.cells i)

/-- `Lattice::new`: all vectors are `make_vec`-filled with defaults
(`Cell::default()` resp. `0.0`), the barrier set and list are empty, and
`init_flow(0.0, 0.0, 1.0)` runs once. -/
def Lattice.new (config : Config) : Lattice :=
  let base : Lattice :=
    { config := config
      cells_one := fun _ => Cell.default
      cells_two := fun _ => Cell.default
      use_one := true
      density := fun _ => 0
      ux := fun _ => 0
      uy := fun _ => 0
      barrier_set := []
      barrier := []
      curl := fun _ => 0
      flow_particles_x := []
      flow_particles_y := [] }
  base.init_flow 0 0 1

/-- The boundary cell computed by `Lattice::set_boundaries` (lines 239–257):
the same moment expansion as `init_flow`, at `ux = flow_speed`, `uy = 0.0`,
`rho = 1.0` (the source's local values `zero` … `eight` are the fields `c`
… `se` in order). -/
def boundaryCell (fs : ℚ) : Cell :=
  let uxv := fs
  let uyv : ℚ := 0
  let rho : ℚ := 1
  let ux3 := 3 * uxv
  let uy3 := 3 * -uyv
  let ux2 := uxv * uxv
  let uy2 := -uyv * -uyv
  let uxuy2 := 2 * uxv * -uyv
  let u2 := ux2 + uy2
  let u215 := 1.5 * u2
  { c := FOUR9THS * rho * (1 - u215)
    e := ONE9TH * rho * (1 + ux3 + 4.5 * ux2 - u215)
    n := ONE9TH * rho * (1 + uy3 + 4.5 * uy2 - u215)
    w := ONE9TH * rho * (1 - ux3 + 4.5 * ux2 - u215)
    s := ONE9TH * rho * (1 - uy3 + 4.5 * uy2 - u215)
    ne := ONE36TH * rho * (1 + ux3 + uy3 + 4.5 * (u2 + uxuy2) - u215)
    nw := ONE36TH * rho * (1 - ux3 + uy3 + 4.5 * (u2 - uxuy2) - u215)
    sw := ONE36TH * rho * (1 - ux3 - uy3 + 4.5 * (u2 + uxuy2) - u215)
    se := ONE36TH * rho * (1 + ux3 - uy3 + 4.5 * (u2 - uxuy2) - u215) }

/-- The set of flat indices written by the two loops of
`Lattice::set_boundaries`: `for x in 0..(width - 1)` writes `x` and
`(height - 1) * width + x`; `for y in 0..(height - 1)` writes `y * width`
and `y * width + (width - 1)`. -/
def boundaryIdx (wid hei i : Nat) : Prop :=
  (∃ x, x < wid - 1 ∧ (i = x ∨ i = (hei - 1) * wid + x)) ∨
    (∃ y, y < hei - 1 ∧ (i = y * wid ∨ i = y * wid + (wid - 1)))

instance (wid hei i : Nat) : Decidable (boundaryIdx wid hei i) := by
  unfold boundaryIdx; infer_instance

/-- `Lattice::set_boundaries`: overwrite every index in `boundaryIdx` of the
active buffer with the boundary cell for the current flow speed.  All writes
store the same value, so the two loops are modelled pointwise. -/
def Lattice.set_boundaries (L : Lattice) : Lattice :=
  let bc := boundaryCell L.config.flow_speed
  L.setActive (fun i =>
    if boundaryIdx L.config.width L.config.height i then bc else L.cells i)

/-- The edge test shared by `stream` and `collide`:
`x == 0 || y == 0 || x >= wid - 1 || y >= hei - 1` for `x = idx % wid`,
`y = idx / wid`. -/
def edgeIdx (wid hei idx : Nat) : Prop :=
  idx % wid = 0 ∨ idx / wid = 0 ∨ wid - 1 ≤ idx % wid ∨ hei - 1 ≤ idx / wid

instance (wid hei idx : Nat) : Decidable (edgeIdx wid hei idx) := by
  unfold edgeIdx; infer_instance

/-- The bulk-copy phase of `Lattice::stream` for one target index: edge cells
copy all nine components unchanged; interior cells pull each moving component
from the neighbor it is traveling from. -/
def streamBulk (wid hei : Nat) (cells : Grid) (idx : Nat) : Cell :=
  let x := idx % wid
  let y := idx / wid
  if edgeIdx wid hei idx then cells idx
  else
    { c := (cells idx).c
      n := (cells ((y - 1) * wid + x)).n
      nw := (cells ((y - 1) * wid + (x + 1))).nw
      e := (cells (y * wid + (x - 1))).e
      ne := (cells ((y - 1) * wid + (x - 1))).ne
      s := (cells ((y + 1) * wid + x)).s
      se := (cells ((y + 1) * wid + (x - 1))).se
      w := (cells (y * wid + (x + 1))).w
      sw := (cells ((y + 1) * wid + (x + 1))).sw }

/-- The bounce-back pass of `Lattice::stream` for one barrier index: the
eight moving components of the barrier cell are reflected into the
opposite-direction slots of the corresponding neighbors.  (In the source the
neighbor coordinates are `u32` arithmetic on an interior barrier; the claims
only ever involve an empty barrier set, where this pass is a no-op.) -/
def bounceStep (wid : Nat) (cells : Grid) (buf : Grid) (idx : Nat) : Grid :=
  let x := idx % wid
  let y := idx / wid
  let cell := cells idx
  let buf := Function.update buf (y * wid + (x + 1))
    { buf (y * wid + (x + 1)) with e := cell.w }
  let buf := Function.update buf ((y + 1) * wid + x)
    { buf ((y + 1) * wid + x) with n := cell.s }
  let buf := Function.update buf (y * wid + (x - 1))
    { buf (y * wid + (x - 1)) with w := cell.e }
  let buf := Function.update buf ((y - 1) * wid + x)
    { buf ((y - 1) * wid + x) with s := cell.n }
  let buf := Function.update buf ((y + 1) * wid + (x + 1))
    { buf ((y + 1) * wid + (x + 1)) with ne := cell.sw }
  let buf := Function.update buf ((y + 1) * wid + (x - 1))
    { buf ((y + 1) * wid + (x - 1)) with nw := cell.se }
  let buf := Function.update buf ((y - 1) * wid + (x - 1))
    { buf ((y - 1) * wid + (x - 1)) with sw := cell.ne }
  let buf := Function.update buf ((y - 1) * wid + (x + 1))
    { buf ((y - 1) * wid + (x + 1)) with se := cell.nw }
  buf

/-- `Lattice::stream`: bulk-copy the active buffer into the inactive one
(indices `0 ..< width * height`; the bulk loop reads only the active buffer
and writes each target index once, so it is modelled pointwise), then run
bounce-back for every barrier index, then toggle `use_one`. -/
def Lattice.stream (L : Lattice) : Lattice :=
  let wid := L.config.width
  let hei := L.config.height
  let cells := L.cells
  let inactive := if L.use_one then L.cells_two else L.cells_one
  let buffer : Grid := fun idx =>
    if idx < wid * hei then streamBulk wid hei cells idx else inactive idx
  let buffer := L.barrier_set.foldl (bounceStep wid cells) buffer
  if L.use_one then { L with cells_two := buffer, use_one := false }
  else { L with cells_one := buffer, use_one := true }

/-- The relaxation-target equilibrium inlined in `Lattice::collide`
(lines 399–436), written with the source's sub-expressions; the y-velocity
here is used un-negated. -/
def collideEquilCell (rho uxv uyv : ℚ) : Cell :=
  let ux3 := 3 * uxv
  let uy3 := 3 * uyv
  let ux2 := uxv * uxv
  let uy2 := uyv * uyv
  let uxuy2 := 2 * uxv * uyv
  let u2 := ux2 + uy2
  let u215 := 1.5 * u2
  let one9thrho := ONE9TH * rho
  let one36thrho := ONE36TH * rho
  let ux3p1 := 1 + ux3
  let ux3m1 := 1 - ux3
  { c := FOUR9THS * rho * (1 - u215)
    e := one9thrho * (ux3p1 + 4.5 * ux2 - u215)
    n := one9thrho * (1 - uy3 + 4.5 * uy2 - u215)
    w := one9thrho * (ux3m1 + 4.5 * ux2 - u215)
    s := one9thrho * (1 + uy3 + 4.5 * uy2 - u215)
    ne := one36thrho * (ux3p1 - uy3 + 4.5 * (u2 - uxuy2) - u215)
    nw := one36thrho * (ux3m1 - uy3 + 4.5 * (u2 + uxuy2) - u215)
    sw := one36thrho * (ux3m1 + uy3 + 4.5 * (u2 - uxuy2) - u215)
    se := one36thrho * (ux3p1 + uy3 + 4.5 * (u2 + uxuy2) - u215) }

/-- The single-relaxation-time update `f ← f + ω (f_eq - f)` applied to all
nine components, where `f_eq` is the collide equilibrium for the cell's own
derived moments (the source computes `rho`, `ux`, `uy` from `cells[idx]`
before mutating it, and each component write reads only that component). -/
def relaxCell (om : ℚ) (cell : Cell) : Cell :=
  let eq := collideEquilCell cell.rho cell.ux cell.uy
  { c := cell.c + om * (eq.c - cell.c)
    e := cell.e + om * (eq.e - cell.e)
    n := cell.n + om * (eq.n - cell.n)
    w := cell.w + om * (eq.w - cell.w)
    s := cell.s + om * (eq.s - cell.s)
    ne := cell.ne + om * (eq.ne - cell.ne)
    nw := cell.nw + om * (eq.nw - cell.nw)
    sw := cell.sw + om * (eq.sw - cell.sw)
    se := cell.se + om * (eq.se - cell.se) }

/-- One iteration of the `Lattice::collide` loop, at flat index `idx`:
edge and barrier indices are skipped; otherwise the derived fields at `idx`
are overwritten with the cell's moments, curl is recomputed when the draw
mode is `Curl` (reading the just-updated `ux`/`uy` arrays, as the source
does), and the cell relaxes toward its equilibrium.  The loop is sequential
only through the `ux`/`uy` reads of the curl line, so `collide` is modelled
as a fold of this step over `0 ..< width * height`. -/
def Lattice.collideStep (L : Lattice) (idx : Nat) : Lattice :=
  let wid := L.config.width
  let hei := L.config.height
  let x := idx % wid
  let y := idx / wid
  if edgeIdx wid hei idx then L
  else if idx ∈ L.barrier_set then L
  else
    let rho := (L.cells idx).rho
    let uxv := (L.cells idx).ux
    let uyv := (L.cells idx).uy
    let density' := Function.update L.density idx rho
    let ux' := Function.update L.ux idx uxv
    let uy' := Function.update L.uy idx uyv
    let curl' :=
      if L.config.draw_mode = DrawMode.Curl then
        Function.update L.curl idx
          (uy' (y * wid + (x + 1)) - uy' (y * wid + (x - 1))
            - ux' ((y + 1) * wid + x) + ux' ((y - 1) * wid + x))
      else L.curl
    let newCell := relaxCell L.config.omega (L.cells idx)
    Lattice.setActive
      { L with density := density', ux := ux', uy := uy', curl := curl' }
      (Function.update L.cells idx newCell)

/-- `Lattice::collide`: the loop over all flat indices. -/
def Lattice.collide (L : Lattice) : Lattice :=
  (List.range (L.config.width * L.config.height)).foldl Lattice.collideStep L

/-- `f64::floor() as u32`: Rust float-to-integer casts saturate, so negative
values clamp to `0` and values at or above `2^32` clamp to `2^32 - 1`. -/
def floorU32 (q : ℚ) : Nat :=
  min (Int.toNat ⌊q⌋) (2 ^ 32 - 1)

/-- The body of the `Lattice::move_particles` loop for one particle: advect
by the velocity field at the floored (saturating-cast) position when that
position indexes into the grid, then reset `x` to `1.0` when the inflow is
positive and the particle's pre-step `x` exceeds `width - 2`. -/
def Lattice.moveParticle (L : Lattice) (p : ℚ × ℚ) : ℚ × ℚ :=
  let px := p.1
  let py := p.2
  let lx := floorU32 px
  let ly := floorU32 py
  let moved :=
    if lx < L.config.width ∧ ly < L.config.height then
      let index := ly * L.config.width + lx
      (px + L.ux index, py + L.uy index)
    else p
  if 0 < L.config.flow_speed ∧ ((L.config.width - 2 : Nat) : ℚ) < px then
    (1, moved.2)
  else moved

/-- `Lattice::move_particles`: each particle is updated independently from
the (unchanged) velocity fields; the two parallel coordinate vectors always
have equal length (they are only ever pushed to and cleared together). -/
def Lattice.move_particles (L : Lattice) : Lattice :=
  let ps := (L.flow_particles_x.zip L.flow_particles_y).map L.moveParticle
  { L with
    flow_particles_x := ps.map Prod.fst
    flow_particles_y := ps.map Prod.snd }

/-- One iteration of the `Lattice::update` loop: stream, collide, and move
the tracer particles when any exist. -/
def Lattice.frameStep (L : Lattice) : Lattice :=
  let L1 := L.stream
  let L2 := L1.collide
  if 0 < L2.flow_particles_x.length then L2.move_particles else L2

/-- `Lattice::update`: apply the boundaries, then run `steps_per_frame`
frame steps. -/
def Lattice.update (L : Lattice) : Lattice :=
  let Lb := L.set_boundaries
  Lattice.frameStep^[Lb.config.steps_per_frame] Lb

/-- `Lattice::set_cell`: raw overwrite of the active buffer at `idx`.  The
buffers have length `width * height`, and Rust `Vec` indexing panics (an
unrecoverable abort, not a reported error) out of range; the panic is
modelled as `none`. -/
def Lattice.set_cell (L : Lattice) (new_cell : Cell) (idx : Nat) : Option Lattice :=
  if idx < L.config.width * L.config.height then
    some (L.setActive (Function.update L.cells idx new_cell))
  else none

/-- `Lattice::set_draw_mode`. -/
def Lattice.set_draw_mode (L : Lattice) (dm : DrawMode) : Lattice :=
  { L with config := { L.config with draw_mode := dm } }

/-- `Lattice::set_viscosity`: delegates to `Config::update_viscosity`. -/
def Lattice.set_viscosity (L : Lattice) (viscosity : ℚ) : Lattice :=
  { L with config := L.config.update_viscosity viscosity }

/-- `Lattice::set_flow_speed`. -/
def Lattice.set_flow_speed (L : Lattice) (fs : ℚ) : Lattice :=
  { L with config := { L.config with flow_speed := fs } }

/-- `Lattice::set_steps_per_frame`. -/
def Lattice.set_steps_per_frame (L : Lattice) (n : Nat) : Lattice :=
  { L with config := { L.config with steps_per_frame := n } }

/-- `Lattice::clear_flow_particles`. -/
def Lattice.clear_flow_particles (L : Lattice) : Lattice :=
  { L with flow_particles_x := [], flow_particles_y := [] }

/-- `Lattice::init_flow_particles`: seed one tracer at every tenth row and
column (`for y in 1..(height / 10)`, `for x in 1..(width / 10)`), skipping
barrier cells, at coordinates scaled by `10.0`. -/
def Lattice.init_flow_particles (L : Lattice) : Lattice :=
  (List.range' 1 (L.config.height / 10 - 1)).foldl (fun acc y =>
    (List.range' 1 (acc.config.width / 10 - 1)).foldl (fun acc2 x =>
      if (y * 10) * acc2.config.width + x * 10 ∈ acc2.barrier_set then acc2
      else
        { acc2 with
          flow_particles_x := acc2.flow_particles_x ++ [(x : ℚ) * 10]
          flow_particles_y := acc2.flow_particles_y ++ [(y : ℚ) * 10] })
      acc)
    L

/-- Total density over the grid: the sum of the per-cell densities of the
active buffer. -/
def Lattice.totalDensity (L : Lattice) : ℚ :=
  Finset.sum (Finset.range (L.config.width * L.config.height))
    (fun i => (L.cells i).rho)

/-- The states reachable through the public (`#[wasm_bindgen]`) operations of
`Lattice`, starting from construction. -/
inductive Reachable : Lattice → Prop where
  | new (cfg : Config) : Reachable (Lattice.new cfg)
  | update {L : Lattice} : Reachable L → Reachable L.update
  | set_draw_mode {L : Lattice} (dm : DrawMode) :
      Reachable L → Reachable (L.set_draw_mode dm)
  | set_viscosity {L : Lattice} (v : ℚ) :
      Reachable L → Reachable (L.set_viscosity v)
  | set_flow_speed {L : Lattice} (fs : ℚ) :
      Reachable L → Reachable (L.set_flow_speed fs)
  | set_cell {L L' : Lattice} (cell : Cell) (idx : Nat) :
      Reachable L → L.set_cell cell idx = some L' → Reachable L'
  | set_steps_per_frame {L : Lattice} (n : Nat) :
      Reachable L → Reachable (L.set_steps_per_frame n)
  | clear_flow_particles {L : Lattice} :
      Reachable L → Reachable L.clear_flow_particles
  | init_flow_particles {L : Lattice} :
      Reachable L → Reachable L.init_flow_particles


/-- Invariant for the zero-inflow lattice: fixed configuration, no barriers,
and every in-range cell at the rest equilibrium. -/
def restInv (cfg : Config) (L : Lattice) : Prop :=
  L.config = cfg ∧ L.barrier_set = [] ∧
    ∀ i, i < cfg.width * cfg.height → L.cells i = initEquilCell 0 0 1

/-- A small concrete 4×4 lattice with constant velocity fields and given
tracer particles, used to evaluate the advection operation at specific
states. -/
def demoLattice (fs uxv uyv : ℚ) (pxs pys : List ℚ) : Lattice :=
  { config := Config.new 4 4 1 fs DrawMode.Speed (1/50)
    cells_one := fun _ => Cell.default
    cells_two := fun _ => Cell.default
    use_one := true
    density := fun _ => 0
    ux := fun _ => uxv
    uy := fun _ => uyv
    barrier_set := []
    barrier := []
    curl := fun _ => 0
    flow_particles_x := pxs
    flow_particles_y := pys }

/-- A 2×2, zero-steps-per-frame, zero-inflow configuration (every cell of a
2×2 grid lies on the outer ring). -/
def cornerConfig : Config := Config.new 2 2 0 0 DrawMode.Speed (1/50)

/-- A 3×3 zero-inflow configuration (one interior cell). -/
def smallConfig : Config := Config.new 3 3 1 0 DrawMode.Speed (1/50)

/-- A 6×5 zero-inflow configuration with 2 steps per frame. -/
def restConfig : Config := Config.new 6 5 2 0 DrawMode.Density (1/50)

/-! ### Basic projection lemmas -/

lemma setActive_cells (L : Lattice) (g : Grid) : (L.setActive g).cells = g := by
  unfold Lattice.setActive Lattice.cells
  by_cases h : L.use_one <;> simp [h]

lemma setActive_config (L : Lattice) (g : Grid) : (L.setActive g).config = L.config := by
  unfold Lattice.setActive; by_cases h : L.use_one <;> simp [h]

lemma setActive_use_one (L : Lattice) (g : Grid) : (L.setActive g).use_one = L.use_one := by
  unfold Lattice.setActive; by_cases h : L.use_one <;> simp [h]

lemma setActive_density (L : Lattice) (g : Grid) : (L.setActive g).density = L.density := by
  unfold Lattice.setActive; by_cases h : L.use_one <;> simp [h]

lemma setActive_ux (L : Lattice) (g : Grid) : (L.setActive g).ux = L.ux := by
  unfold Lattice.setActive; by_cases h : L.use_one <;> simp [h]

lemma setActive_uy (L : Lattice) (g : Grid) : (L.setActive g).uy = L.uy := by
  unfold Lattice.setActive; by_cases h : L.use_one <;> simp [h]

lemma setActive_barrier_set (L : Lattice) (g : Grid) :
    (L.setActive g).barrier_set = L.barrier_set := by
  unfold Lattice.setActive; by_cases h : L.use_one <;> simp [h]

lemma setActive_barrier (L : Lattice) (g : Grid) : (L.setActive g).barrier = L.barrier := by
  unfold Lattice.setActive; by_cases h : L.use_one <;> simp [h]

lemma setActive_px (L : Lattice) (g : Grid) :
    (L.setActive g).flow_particles_x = L.flow_particles_x := by
  unfold Lattice.setActive; by_cases h : L.use_one <;> simp [h]

lemma setActive_py (L : Lattice) (g : Grid) :
    (L.setActive g).flow_particles_y = L.flow_particles_y := by
  unfold Lattice.setActive; by_cases h : L.use_one <;> simp [h]

/-- A fold preserves any property each step preserves. -/
lemma foldl_hold {α β : Type _} (P : α → Prop) (f : α → β → α)
    (hf : ∀ a b, P a → P (f a b)) :
    ∀ (l : List β) (a : α), P a → P (l.foldl f a) := by
  intro l
  induction l with
  | nil => intro a ha; exact ha
  | cons b t ih => intro a ha; exact ih _ (hf _ _ ha)

/-! ### Collision-step lemmas -/

lemma collideStep_config (L : Lattice) (i : Nat) : (L.collideStep i).config = L.config := by
  simp only [Lattice.collideStep]
  split_ifs <;> simp [setActive_config]

lemma collideStep_barrier_set (L : Lattice) (i : Nat) :
    (L.collideStep i).barrier_set = L.barrier_set := by
  simp only [Lattice.collideStep]
  split_ifs <;> simp [setActive_barrier_set]

lemma collideStep_barrier (L : Lattice) (i : Nat) :
    (L.collideStep i).barrier = L.barrier := by
  simp only [Lattice.collideStep]
  split_ifs <;> simp [setActive_barrier]

lemma collideStep_use_one (L : Lattice) (i : Nat) :
    (L.collideStep i).use_one = L.use_one := by
  simp only [Lattice.collideStep]
  split_ifs <;> simp [setActive_use_one]

lemma collideStep_px (L : Lattice) (i : Nat) :
    (L.collideStep i).flow_particles_x = L.flow_particles_x := by
  simp only [Lattice.collideStep]
  split_ifs <;> simp [setActive_px]

lemma collideStep_py (L : Lattice) (i : Nat) :
    (L.collideStep i).flow_particles_y = L.flow_particles_y := by
  simp only [Lattice.collideStep]
  split_ifs <;> simp [setActive_py]

lemma collideStep_cells_ne (L : Lattice) (i j : Nat) (h : j ≠ i) :
    (L.collideStep i).cells j = L.cells j := by
  simp only [Lattice.collideStep]
  split_ifs <;> simp [setActive_cells, Function.update_noteq h]

lemma collideStep_cells_self (L : Lattice) (i : Nat) :
    (L.collideStep i).cells i =
      if ¬ edgeIdx L.config.width L.config.height i ∧ i ∉ L.barrier_set
      then relaxCell L.config.omega (L.cells i) else L.cells i := by
  by_cases h1 : edgeIdx L.config.width L.config.height i
  · simp [Lattice.collideStep, h1]
  · by_cases h2 : i ∈ L.barrier_set
    · simp [Lattice.collideStep, h1, h2]
    · simp [Lattice.collideStep, h1, h2, setActive_cells]

lemma collide_fold_config (L : Lattice) (l : List Nat) :
    ((l.foldl Lattice.collideStep L).config = L.config ∧
      (l.foldl Lattice.collideStep L).barrier_set = L.barrier_set ∧
      (l.foldl Lattice.collideStep L).barrier = L.barrier ∧
      (l.foldl Lattice.collideStep L).use_one = L.use_one ∧
      (l.foldl Lattice.collideStep L).flow_particles_x = L.flow_particles_x ∧
      (l.foldl Lattice.collideStep L).flow_particles_y = L.flow_particles_y) := by
  refine foldl_hold (fun a => a.config = L.config ∧ a.barrier_set = L.barrier_set ∧
      a.barrier = L.barrier ∧ a.use_one = L.use_one ∧
      a.flow_particles_x = L.flow_particles_x ∧ a.flow_particles_y = L.flow_particles_y)
    Lattice.collideStep ?_ l L ⟨rfl, rfl, rfl, rfl, rfl, rfl⟩
  rintro a b ⟨h1, h2, h3, h4, h5, h6⟩
  exact ⟨(collideStep_config a b).trans h1, (collideStep_barrier_set a b).trans h2,
    (collideStep_barrier a b).trans h3, (collideStep_use_one a b).trans h4,
    (collideStep_px a b).trans h5, (collideStep_py a b).trans h6⟩

lemma collide_fold_cells (L : Lattice) (k j : Nat) :
    ((List.range k).foldl Lattice.collideStep L).cells j =
      if j < k ∧ ¬ edgeIdx L.config.width L.config.height j ∧ j ∉ L.barrier_set
      then relaxCell L.config.omega (L.cells j) else L.cells j := by
  induction k with
  | zero => simp
  | succ k ih =>
    rw [List.range_succ, List.foldl_append, List.foldl_cons, List.foldl_nil]
    have hconf := (collide_fold_config L (List.range k)).1
    have hbs := (collide_fold_config L (List.range k)).2.1
    by_cases hj : j = k
    · subst hj
      rw [collideStep_cells_self, hconf, hbs]
      have hcells : ((List.range j).foldl Lattice.collideStep L).cells j = L.cells j := by
        rw [ih]; simp
      rw [hcells]
      simp [Nat.lt_succ_self]
    · rw [collideStep_cells_ne _ _ _ hj, ih]
      by_cases h1 : j < k
      · simp [h1, Nat.lt_succ_of_lt h1]
      · have h2 : ¬ j < k + 1 := by omega
        simp [h1, h2]

lemma collide_cells (L : Lattice) (j : Nat) :
    (L.collide).cells j =
      if j < L.config.width * L.config.height ∧
          ¬ edgeIdx L.config.width L.config.height j ∧ j ∉ L.barrier_set
      then relaxCell L.config.omega (L.cells j) else L.cells j :=
  collide_fold_cells L _ j

lemma collide_config (L : Lattice) : (L.collide).config = L.config :=
  (collide_fold_config L _).1

lemma collide_barrier_set (L : Lattice) : (L.collide).barrier_set = L.barrier_set :=
  (collide_fold_config L _).2.1

lemma collide_barrier (L : Lattice) : (L.collide).barrier = L.barrier :=
  (collide_fold_config L _).2.2.1

/-- A cell that already equals the collide equilibrium of its own moments is
a fixed point of the relaxation, for every relaxation rate. -/
lemma relax_fixed (om : ℚ) (cell : Cell)
    (h : cell = collideEquilCell cell.rho cell.ux cell.uy) :
    relaxCell om cell = cell := by
  ext <;> (simp only [relaxCell, ← h]; ring)

/-! ### Stream lemmas -/

lemma stream_config (L : Lattice) : (L.stream).config = L.config := by
  simp only [Lattice.stream]; split_ifs <;> rfl

lemma stream_barrier_set (L : Lattice) : (L.stream).barrier_set = L.barrier_set := by
  simp only [Lattice.stream]; split_ifs <;> rfl

lemma stream_barrier (L : Lattice) : (L.stream).barrier = L.barrier := by
  simp only [Lattice.stream]; split_ifs <;> rfl

lemma stream_px (L : Lattice) : (L.stream).flow_particles_x = L.flow_particles_x := by
  simp only [Lattice.stream]; split_ifs <;> rfl

lemma stream_py (L : Lattice) : (L.stream).flow_particles_y = L.flow_particles_y := by
  simp only [Lattice.stream]; split_ifs <;> rfl

/-- With no barriers, the post-stream active buffer is the bulk copy at every
in-range index. -/
lemma stream_cells (L : Lattice) (hb : L.barrier_set = []) (i : Nat)
    (hi : i < L.config.width * L.config.height) :
    (L.stream).cells i = streamBulk L.config.width L.config.height L.cells i := by
  simp only [Lattice.stream, hb, List.foldl_nil]
  by_cases h : L.use_one <;> simp [h, Lattice.cells, hi]

lemma index_lt_size {wid hei x y : Nat} (hx : x < wid) (hy : y < hei) :
    y * wid + x < wid * hei := by
  calc y * wid + x < y * wid + wid := by omega
    _ = (y + 1) * wid := by ring
    _ ≤ hei * wid := Nat.mul_le_mul_right _ hy
    _ = wid * hei := Nat.mul_comm _ _

/-- On a uniform in-range field, the bulk copy reproduces the same value. -/
lemma streamBulk_uniform (wid hei : Nat) (cells : Grid) (v : Cell)
    (huni : ∀ j, j < wid * hei → cells j = v) (i : Nat) (hi : i < wid * hei) :
    streamBulk wid hei cells i = v := by
  simp only [streamBulk]
  by_cases he : edgeIdx wid hei i
  · simp [he, huni i hi]
  · rw [if_neg he]
    unfold edgeIdx at he
    push_neg at he
    set x := i % wid with hxd
    set y := i / wid with hyd
    obtain ⟨hx0, hy0, hx1, hy1⟩ := he
    have hwid : 0 < wid := by omega
    have hxw : x < wid := hxd ▸ Nat.mod_lt _ hwid
    have hyh : y < hei := by
      rw [hyd, Nat.div_lt_iff_lt_mul hwid]
      exact Nat.lt_of_lt_of_eq hi (Nat.mul_comm wid hei)
    have hxp : x + 1 < wid := Nat.add_lt_of_lt_sub hx1
    have hxm : x - 1 < wid := Nat.lt_of_le_of_lt (Nat.sub_le x 1) hxw
    have hyp : y + 1 < hei := Nat.add_lt_of_lt_sub hy1
    have hym : y - 1 < hei := Nat.lt_of_le_of_lt (Nat.sub_le y 1) hyh
    have e1 : cells ((y - 1) * wid + x) = v := huni _ (index_lt_size hxw hym)
    have e2 : cells ((y - 1) * wid + (x + 1)) = v := huni _ (index_lt_size hxp hym)
    have e3 : cells (y * wid + (x - 1)) = v := huni _ (index_lt_size hxm hyh)
    have e4 : cells ((y - 1) * wid + (x - 1)) = v := huni _ (index_lt_size hxm hym)
    have e5 : cells ((y + 1) * wid + x) = v := huni _ (index_lt_size hxw hyp)
    have e6 : cells ((y + 1) * wid + (x - 1)) = v := huni _ (index_lt_size hxm hyp)
    have e7 : cells (y * wid + (x + 1)) = v := huni _ (index_lt_size hxp hyh)
    have e8 : cells ((y + 1) * wid + (x + 1)) = v := huni _ (index_lt_size hxp hyp)
    rw [huni i hi, e1, e2, e3, e4, e5, e6, e7, e8]

/-- With no barriers, one streaming step maps a uniform field to itself. -/
lemma stream_uniform (L : Lattice) (hb : L.barrier_set = []) (v : Cell)
    (huni : ∀ j, j < L.config.width * L.config.height → L.cells j = v) :
    ∀ i, i < L.config.width * L.config.height → (L.stream).cells i = v := by
  intro i hi
  rw [stream_cells L hb i hi]
  exact streamBulk_uniform _ _ _ v huni i hi

/-! ### Boundary, init and constructor lemmas -/

lemma set_boundaries_cells (L : Lattice) (i : Nat) :
    (L.set_boundaries).cells i =
      if boundaryIdx L.config.width L.config.height i
      then boundaryCell L.config.flow_speed else L.cells i := by
  simp [Lattice.set_boundaries, setActive_cells]

lemma set_boundaries_config (L : Lattice) : (L.set_boundaries).config = L.config :=
  setActive_config _ _

lemma set_boundaries_barrier_set (L : Lattice) :
    (L.set_boundaries).barrier_set = L.barrier_set :=
  setActive_barrier_set _ _

lemma set_boundaries_barrier (L : Lattice) : (L.set_boundaries).barrier = L.barrier :=
  setActive_barrier _ _

lemma set_boundaries_px (L : Lattice) :
    (L.set_boundaries).flow_particles_x = L.flow_particles_x :=
  setActive_px _ _

lemma set_boundaries_py (L : Lattice) :
    (L.set_boundaries).flow_particles_y = L.flow_particles_y :=
  setActive_py _ _

lemma init_flow_cells (L : Lattice) (a b r : ℚ) (i : Nat) :
    (L.init_flow a b r).cells i =
      if i < L.config.width * L.config.height ∧ i ∉ L.barrier_set
      then initEquilCell a b r else L.cells i := by
  simp [Lattice.init_flow, setActive_cells]

lemma init_flow_density (L : Lattice) (a b r : ℚ) (i : Nat) :
    (L.init_flow a b r).density i =
      if i < L.config.width * L.config.height ∧ i ∉ L.barrier_set
      then r else L.density i := by
  simp [Lattice.init_flow, setActive_density]

lemma init_flow_ux (L : Lattice) (a b r : ℚ) (i : Nat) :
    (L.init_flow a b r).ux i =
      if i < L.config.width * L.config.height ∧ i ∉ L.barrier_set
      then a else L.ux i := by
  simp [Lattice.init_flow, setActive_ux]

lemma init_flow_uy (L : Lattice) (a b r : ℚ) (i : Nat) :
    (L.init_flow a b r).uy i =
      if i < L.config.width * L.config.height ∧ i ∉ L.barrier_set
      then b else L.uy i := by
  simp [Lattice.init_flow, setActive_uy]

lemma init_flow_config (L : Lattice) (a b r : ℚ) : (L.init_flow a b r).config = L.config :=
  setActive_config _ _

lemma init_flow_barrier_set (L : Lattice) (a b r : ℚ) :
    (L.init_flow a b r).barrier_set = L.barrier_set :=
  setActive_barrier_set _ _

lemma new_config (cfg : Config) : (Lattice.new cfg).config = cfg := by
  simp [Lattice.new, init_flow_config]

lemma new_barrier_set (cfg : Config) : (Lattice.new cfg).barrier_set = [] := by
  simp [Lattice.new, init_flow_barrier_set]

lemma new_barrier (cfg : Config) : (Lattice.new cfg).barrier = [] := by
  simp [Lattice.new, Lattice.init_flow, setActive_barrier]

lemma new_px (cfg : Config) : (Lattice.new cfg).flow_particles_x = [] := by
  simp [Lattice.new, Lattice.init_flow, setActive_px]

lemma new_py (cfg : Config) : (Lattice.new cfg).flow_particles_y = [] := by
  simp [Lattice.new, Lattice.init_flow, setActive_py]

lemma new_cells (cfg : Config) (i : Nat) (hi : i < cfg.width * cfg.height) :
    (Lattice.new cfg).cells i = initEquilCell 0 0 1 := by
  simp [Lattice.new, init_flow_cells, hi]

lemma new_density (cfg : Config) (i : Nat) (hi : i < cfg.width * cfg.height) :
    (Lattice.new cfg).density i = 1 := by
  simp [Lattice.new, init_flow_density, hi]

lemma new_ux (cfg : Config) (i : Nat) (hi : i < cfg.width * cfg.height) :
    (Lattice.new cfg).ux i = 0 := by
  simp [Lattice.new, init_flow_ux, hi]

lemma new_uy (cfg : Config) (i : Nat) (hi : i < cfg.width * cfg.height) :
    (Lattice.new cfg).uy i = 0 := by
  simp [Lattice.new, init_flow_uy, hi]

/-! ### The rest equilibrium cell -/

/-- The rest-state equilibrium cell written by construction. -/
lemma initEquil_rest_rho : (initEquilCell 0 0 1).rho = 1 := by
  norm_num [initEquilCell, Cell.rho, FOUR9THS, ONE9TH, ONE36TH]

lemma initEquil_rest_fixed :
    initEquilCell 0 0 1 =
      collideEquilCell (initEquilCell 0 0 1).rho (initEquilCell 0 0 1).ux
        (initEquilCell 0 0 1).uy := by
  norm_num [initEquilCell, collideEquilCell, Cell.rho, Cell.ux, Cell.uy,
    FOUR9THS, ONE9TH, ONE36TH]

lemma boundaryCell_zero : boundaryCell 0 = initEquilCell 0 0 1 := by
  norm_num [boundaryCell, initEquilCell]

/-! ### Particle lemmas -/

lemma move_particles_cells (L : Lattice) : (L.move_particles).cells = L.cells := rfl

lemma move_particles_config (L : Lattice) : (L.move_particles).config = L.config := rfl

lemma move_particles_barrier_set (L : Lattice) :
    (L.move_particles).barrier_set = L.barrier_set := rfl

lemma move_particles_barrier (L : Lattice) : (L.move_particles).barrier = L.barrier := rfl

lemma zip_getElem_q {α β : Type _} (xs : List α) (ys : List β) (k : Nat) :
    (xs.zip ys)[k]? = xs[k]?.bind fun a => ys[k]?.map fun b => (a, b) := by
  induction xs generalizing ys k with
  | nil => simp
  | cons a t ih =>
    cases ys with
    | nil => simp
    | cons b u =>
      cases k with
      | zero => simp
      | succ k => simpa using ih u k

/-- Reading one particle of the advection output: each particle is mapped by
`moveParticle` independently. -/
lemma move_particles_get (L : Lattice) (k : Nat) (px py : ℚ)
    (hx : L.flow_particles_x[k]? = some px) (hy : L.flow_particles_y[k]? = some py) :
    (L.move_particles).flow_particles_x[k]? = some (L.moveParticle (px, py)).1 ∧
    (L.move_particles).flow_particles_y[k]? = some (L.moveParticle (px, py)).2 := by
  unfold Lattice.move_particles
  simp [List.getElem?_map, zip_getElem_q, hx, hy]

/-! ### Frame-step and update lemmas -/

lemma frameStep_config (L : Lattice) : (L.frameStep).config = L.config := by
  simp only [Lattice.frameStep]
  split_ifs <;> simp [move_particles_config, collide_config, stream_config]

lemma frameStep_barrier_set (L : Lattice) : (L.frameStep).barrier_set = L.barrier_set := by
  simp only [Lattice.frameStep]
  split_ifs <;> simp [move_particles_barrier_set, collide_barrier_set, stream_barrier_set]

lemma frameStep_barrier (L : Lattice) : (L.frameStep).barrier = L.barrier := by
  simp only [Lattice.frameStep]
  split_ifs <;> simp [move_particles_barrier, collide_barrier, stream_barrier]

lemma iterate_frameStep_hold (P : Lattice → Prop)
    (hf : ∀ L, P L → P L.frameStep) :
    ∀ (n : Nat) (L : Lattice), P L → P (Lattice.frameStep^[n] L) := by
  intro n
  induction n with
  | zero => intro L h; simpa using h
  | succ n ih =>
    intro L h
    rw [Function.iterate_succ_apply]
    exact ih _ (hf _ h)

lemma update_barrier_set (L : Lattice) : (L.update).barrier_set = L.barrier_set := by
  unfold Lattice.update
  have h : ∀ n M, (Lattice.frameStep^[n] M).barrier_set = M.barrier_set := by
    intro n
    induction n with
    | zero => simp
    | succ n ih => intro M; rw [Function.iterate_succ_apply, ih, frameStep_barrier_set]
  rw [h, set_boundaries_barrier_set]

lemma update_barrier (L : Lattice) : (L.update).barrier = L.barrier := by
  unfold Lattice.update
  have h : ∀ n M, (Lattice.frameStep^[n] M).barrier = M.barrier := by
    intro n
    induction n with
    | zero => simp
    | succ n ih => intro M; rw [Function.iterate_succ_apply, ih, frameStep_barrier]
  rw [h, set_boundaries_barrier]

lemma init_flow_particles_barrier_set (L : Lattice) :
    (L.init_flow_particles).barrier_set = L.barrier_set := by
  unfold Lattice.init_flow_particles
  refine foldl_hold (fun a : Lattice => a.barrier_set = L.barrier_set) _ ?_ _ _ rfl
  intro a y ha
  refine foldl_hold (fun a2 : Lattice => a2.barrier_set = L.barrier_set) _ ?_ _ _ ha
  intro a2 x ha2
  split_ifs <;> simpa using ha2

lemma init_flow_particles_barrier (L : Lattice) :
    (L.init_flow_particles).barrier = L.barrier := by
  unfold Lattice.init_flow_particles
  refine foldl_hold (fun a : Lattice => a.barrier = L.barrier) _ ?_ _ _ rfl
  intro a y ha
  refine foldl_hold (fun a2 : Lattice => a2.barrier = L.barrier) _ ?_ _ _ ha
  intro a2 x ha2
  split_ifs <;> simpa using ha2

/-- No public operation ever inserts into the barrier set or list, so both
stay empty in every reachable state. -/
lemma reachable_barriers {L : Lattice} (h : Reachable L) :
    L.barrier_set = [] ∧ L.barrier = [] := by
  induction h with
  | new cfg => exact ⟨new_barrier_set cfg, new_barrier cfg⟩
  | update _ ih => exact ⟨(update_barrier_set _).trans ih.1, (update_barrier _).trans ih.2⟩
  | set_draw_mode dm _ ih => simpa [Lattice.set_draw_mode] using ih
  | set_viscosity v _ ih => simpa [Lattice.set_viscosity] using ih
  | set_flow_speed fs _ ih => simpa [Lattice.set_flow_speed] using ih
  | set_cell cell idx _ hc ih =>
    unfold Lattice.set_cell at hc
    split_ifs at hc
    cases hc
    simpa [setActive_barrier_set, setActive_barrier] using ih
  | set_steps_per_frame n _ ih => simpa [Lattice.set_steps_per_frame] using ih
  | clear_flow_particles _ ih => simpa [Lattice.clear_flow_particles] using ih
  | init_flow_particles _ ih =>
    exact ⟨(init_flow_particles_barrier_set _).trans ih.1,
      (init_flow_particles_barrier _).trans ih.2⟩

/-! ### The rest-state invariant (no inflow, no barriers) -/

lemma restInv_new (cfg : Config) : restInv cfg (Lattice.new cfg) :=
  ⟨new_config cfg, new_barrier_set cfg, fun i hi => new_cells cfg i hi⟩

lemma restInv_set_boundaries {cfg : Config} (hfs : cfg.flow_speed = 0) {L : Lattice}
    (h : restInv cfg L) : restInv cfg L.set_boundaries := by
  obtain ⟨h1, h2, h3⟩ := h
  refine ⟨(set_boundaries_config L).trans h1, (set_boundaries_barrier_set L).trans h2, ?_⟩
  intro i hi
  rw [set_boundaries_cells, h1, hfs, boundaryCell_zero]
  split_ifs with hb
  · rfl
  · exact h3 i hi

lemma restInv_stream {cfg : Config} {L : Lattice} (h : restInv cfg L) :
    restInv cfg L.stream := by
  obtain ⟨h1, h2, h3⟩ := h
  refine ⟨(stream_config L).trans h1, (stream_barrier_set L).trans h2, ?_⟩
  intro i hi
  exact stream_uniform L h2 _ (by rw [h1]; exact h3) i (by rw [h1]; exact hi)

lemma restInv_collide {cfg : Config} {L : Lattice} (h : restInv cfg L) :
    restInv cfg L.collide := by
  obtain ⟨h1, h2, h3⟩ := h
  refine ⟨(collide_config L).trans h1, (collide_barrier_set L).trans h2, ?_⟩
  intro i hi
  rw [collide_cells, h1]
  split_ifs with hb
  · rw [h3 i hi, relax_fixed _ _ initEquil_rest_fixed]
  · exact h3 i hi

lemma restInv_frameStep {cfg : Config} {L : Lattice} (h : restInv cfg L) :
    restInv cfg L.frameStep := by
  have h2 := restInv_collide (restInv_stream h)
  simp only [Lattice.frameStep]
  split_ifs with hp
  · obtain ⟨g1, g2, g3⟩ := h2
    exact ⟨(move_particles_config _).trans g1, (move_particles_barrier_set _).trans g2,
      fun i hi => by rw [move_particles_cells]; exact g3 i hi⟩
  · exact h2

lemma restInv_update {cfg : Config} (hfs : cfg.flow_speed = 0) {L : Lattice}
    (h : restInv cfg L) : restInv cfg L.update := by
  unfold Lattice.update
  exact iterate_frameStep_hold (restInv cfg) (fun _ hh => restInv_frameStep hh) _ _
    (restInv_set_boundaries hfs h)

lemma restInv_totalDensity {cfg : Config} {L : Lattice} (h : restInv cfg L) :
    L.totalDensity = ((cfg.width * cfg.height : Nat) : ℚ) := by
  unfold Lattice.totalDensity
  rw [h.1]
  rw [Finset.sum_congr rfl
    (fun i hi => by rw [h.2.2 i (Finset.mem_range.mp hi), initEquil_rest_rho])]
  simp

/-! ### Claim theorems -/

/-- C4: the initialization/boundary equilibrium formula (which substitutes
`-uy` for the y-velocity) agrees componentwise, as a function of `ux`, `uy`,
`rho`, with the relaxation-target equilibrium inlined in the collision step
(which uses `uy` un-negated): the two sign conventions define the same
function. -/
theorem c4_equilibrium_sign_conventions_agree :
    (∀ uxv uyv rho : ℚ, initEquilCell uxv uyv rho = collideEquilCell rho uxv uyv) ∧
    (∀ fs : ℚ, boundaryCell fs = collideEquilCell 1 fs 0) := by
  constructor
  · intro uxv uyv rho
    ext <;> (simp only [initEquilCell, collideEquilCell]; ring)
  · intro fs
    ext <;> (simp only [boundaryCell, collideEquilCell]; ring)

/-- C2: a cell whose nine components equal the collide equilibrium of its
own derived density and velocity is left unchanged by one collision step,
for any relaxation rate (the lattice, and hence `omega`, is universally
quantified). -/
theorem c2_collide_equilibrium_fixed (L : Lattice) (idx : Nat)
    (h : L.cells idx =
      collideEquilCell (L.cells idx).rho (L.cells idx).ux (L.cells idx).uy) :
    (L.collide).cells idx = L.cells idx := by
  rw [collide_cells]
  split_ifs with hc
  · exact relax_fixed _ _ h
  · rfl

/-- Witness for C2: the interior cell of a freshly constructed 3×3 lattice
is at its own equilibrium, and one collision step leaves it unchanged. -/
theorem c2_collide_equilibrium_fixed_witness :
    ((Lattice.new smallConfig).collide).cells 4 = (Lattice.new smallConfig).cells 4 := by
  apply c2_collide_equilibrium_fixed
  have h4 : (Lattice.new smallConfig).cells 4 = initEquilCell 0 0 1 :=
    new_cells _ 4 (by norm_num [smallConfig, Config.new, Config.update_viscosity])
  rw [h4]
  exact initEquil_rest_fixed

/-- C3: on a uniform field (every in-range cell of the active buffer holds
the same value) with the program's (always empty) barrier set, one streaming
step leaves every in-range cell of the now-active buffer at that value. -/
theorem c3_stream_uniform_field (L : Lattice) (hb : L.barrier_set = []) (v : Cell)
    (huni : ∀ i, i < L.config.width * L.config.height → L.cells i = v) :
    ∀ i, i < L.config.width * L.config.height → (L.stream).cells i = v :=
  stream_uniform L hb v huni

/-- Witness for C3: the freshly constructed 3×3 lattice is uniform, and
streaming leaves its interior cell at the same value. -/
theorem c3_stream_uniform_field_witness :
    ((Lattice.new smallConfig).stream).cells 4 = initEquilCell 0 0 1 := by
  apply c3_stream_uniform_field
  · exact new_barrier_set _
  · intro i hi
    rw [new_config] at hi
    exact new_cells _ i hi
  · rw [new_config]
    norm_num [smallConfig, Config.new, Config.update_viscosity]

/-- C10: in every state reachable through the public operations, the barrier
membership set and the ordered barrier list contain exactly the same flat
indices (no public operation of the source inserts into either, so both stay
empty). -/
theorem c10_barrier_consistency (L : Lattice) (h : Reachable L) (i : Nat) :
    i ∈ L.barrier_set ↔ i ∈ L.barrier := by
  obtain ⟨h1, h2⟩ := reachable_barriers h
  rw [h1, h2]

/-- Witness for C10 at a freshly constructed lattice. -/
theorem c10_barrier_consistency_witness :
    (5 ∈ (Lattice.new smallConfig).barrier_set ↔ 5 ∈ (Lattice.new smallConfig).barrier) :=
  c10_barrier_consistency _ (Reachable.new smallConfig) 5

/-- C9: `set_cell` on an in-range index overwrites exactly that cell of the
active buffer, leaving every other cell, the barrier set, the ordered
barrier list and the configuration unchanged; on an out-of-range index it
reaches the panicking branch of `Vec` indexing (modelled `none`) rather than
any reported, recoverable error. -/
theorem c9_set_cell_raw_overwrite (L : Lattice) (cell : Cell) (idx : Nat) :
    (idx < L.config.width * L.config.height →
      ∃ L', L.set_cell cell idx = some L' ∧
        L'.cells idx = cell ∧
        (∀ j, j ≠ idx → L'.cells j = L.cells j) ∧
        L'.barrier_set = L.barrier_set ∧ L'.barrier = L.barrier ∧
        L'.config = L.config) ∧
    (L.config.width * L.config.height ≤ idx → L.set_cell cell idx = none) := by
  constructor
  · intro h
    refine ⟨_, by rw [Lattice.set_cell, if_pos h], ?_, ?_, ?_, ?_, ?_⟩
    · rw [setActive_cells, Function.update_same]
    · intro j hj
      rw [setActive_cells, Function.update_noteq hj]
    · exact setActive_barrier_set _ _
    · exact setActive_barrier _ _
    · exact setActive_config _ _
  · intro h
    rw [Lattice.set_cell, if_neg (by omega)]

/-- Witness for C9: an in-range overwrite at index 1 and an out-of-range
call at index 9 of a 2×2 lattice. -/
theorem c9_set_cell_raw_overwrite_witness :
    (∃ L', (Lattice.new cornerConfig).set_cell Cell.default 1 = some L' ∧
        L'.cells 1 = Cell.default ∧
        (∀ j, j ≠ 1 → L'.cells j = (Lattice.new cornerConfig).cells j) ∧
        L'.barrier_set = (Lattice.new cornerConfig).barrier_set ∧
        L'.barrier = (Lattice.new cornerConfig).barrier ∧
        L'.config = (Lattice.new cornerConfig).config) ∧
    (Lattice.new cornerConfig).set_cell Cell.default 9 = none := by
  constructor
  · exact (c9_set_cell_raw_overwrite _ Cell.default 1).1
      (by rw [new_config]; norm_num [cornerConfig, Config.new, Config.update_viscosity])
  · exact (c9_set_cell_raw_overwrite _ Cell.default 9).2
      (by rw [new_config]; norm_num [cornerConfig, Config.new, Config.update_viscosity])

/-- C1 (code bug): `set_boundaries` loops over `x in 0..(width - 1)` and
`y in 0..(height - 1)`, which together cover the whole outer ring except the
bottom-right corner `(height - 1) * width + (width - 1)`.  Concretely: on a
2×2, zero-steps-per-frame, zero-inflow lattice (where every cell is a ring
cell and `update()` is exactly `set_boundaries()`), zeroing cell 3 with
`set_cell` and then running `update()` leaves cell 3 all-zero, while the
claimed boundary equilibrium is a different cell (its center weight is 4/9).
-/
theorem c1_boundary_corner_skipped :
    ((Lattice.new cornerConfig).set_cell Cell.default 3).map
        (fun L2 => (L2.update).cells 3) = some Cell.default ∧
      Cell.default ≠ boundaryCell 0 := by
  constructor
  · norm_num [cornerConfig, Lattice.new, Lattice.init_flow, Lattice.set_cell,
      Lattice.update, Lattice.set_boundaries, Lattice.setActive, Lattice.cells,
      Config.new, Config.update_viscosity, Function.update,
      (by decide : ¬ boundaryIdx 2 2 3)]
  · norm_num [Cell.default, boundaryCell, FOUR9THS, ONE9TH, ONE36TH]

/-- Counterexample to C5 as stated: a tracer at `(-7/2, 1/2)` lies outside
the grid (negative x), yet the advection sub-step moves it: the saturating
`as u32` cast clamps the floored coordinate to 0, the guard `lx < width`
passes, and the velocity at column 0 is added. -/
theorem c5_negative_position_moves_counterexample :
    ((demoLattice 0 (1/10) 0 [-(7/2)] [1/2]).move_particles).flow_particles_x =
        [-(17/5)] ∧ (-(17/5) : ℚ) ≠ -(7/2) := by
  have h1 : floorU32 (-(7/2) : ℚ) = 0 := by norm_num [floorU32]
  have h2 : floorU32 (1/2 : ℚ) = 0 := by norm_num [floorU32]
  constructor
  · norm_num [demoLattice, Lattice.move_particles, Lattice.moveParticle, h1, h2,
      Config.new, Config.update_viscosity]
  · norm_num

/-- C5 as amended: in an advection sub-step with the inlet reset not
triggered, a tracer whose floored position, clamped by the saturating
float-to-`u32` cast (negatives clamp to zero), indexes into the grid gets the
velocity field at that flat index added to its position; a tracer whose
clamped floored position lies at or beyond `width` or `height` is left
unmoved. -/
theorem c5_advection_amended (L : Lattice) (k : Nat) (px py : ℚ)
    (hx : L.flow_particles_x[k]? = some px)
    (hy : L.flow_particles_y[k]? = some py)
    (hnr : ¬ (0 < L.config.flow_speed ∧ ((L.config.width - 2 : Nat) : ℚ) < px)) :
    (floorU32 px < L.config.width ∧ floorU32 py < L.config.height →
      (L.move_particles).flow_particles_x[k]? =
          some (px + L.ux (floorU32 py * L.config.width + floorU32 px)) ∧
        (L.move_particles).flow_particles_y[k]? =
          some (py + L.uy (floorU32 py * L.config.width + floorU32 px))) ∧
    (¬ (floorU32 px < L.config.width ∧ floorU32 py < L.config.height) →
      (L.move_particles).flow_particles_x[k]? = some px ∧
        (L.move_particles).flow_particles_y[k]? = some py) := by
  obtain ⟨gx, gy⟩ := move_particles_get L k px py hx hy
  constructor
  · intro hin
    refine ⟨?_, ?_⟩
    · rw [gx]; simp only [Lattice.moveParticle]; rw [if_neg hnr, if_pos hin]
    · rw [gy]; simp only [Lattice.moveParticle]; rw [if_neg hnr, if_pos hin]
  · intro hout
    refine ⟨?_, ?_⟩
    · rw [gx]; simp only [Lattice.moveParticle]; rw [if_neg hnr, if_neg hout]
    · rw [gy]; simp only [Lattice.moveParticle]; rw [if_neg hnr, if_neg hout]

/-- Witness for the amended C5: the tracer at `(-7/2, 1/2)` (clamped to
column 0, row 0) is advected by the velocity there. -/
theorem c5_advection_amended_witness :
    ((demoLattice 0 (1/10) 0 [-(7/2)] [1/2]).move_particles).flow_particles_x[0]? =
      some (-(7/2) + (demoLattice 0 (1/10) 0 [-(7/2)] [1/2]).ux
        (floorU32 (1/2) * (demoLattice 0 (1/10) 0 [-(7/2)] [1/2]).config.width
          + floorU32 (-(7/2)))) := by
  have h1 : floorU32 (-(7/2) : ℚ) = 0 := by norm_num [floorU32]
  have h2 : floorU32 (1/2 : ℚ) = 0 := by norm_num [floorU32]
  exact ((c5_advection_amended (demoLattice 0 (1/10) 0 [-(7/2)] [1/2]) 0 (-(7/2)) (1/2)
      rfl rfl
      (by norm_num [demoLattice, Config.new, Config.update_viscosity])).1
    (by norm_num [demoLattice, Config.new, Config.update_viscosity, h1, h2])).1

/-- Counterexample to C6 as stated: a tracer at `(5/2, 1/2)` on a 4-wide
lattice with positive inflow has `x > width - 2`, so its x resets to exactly
1, but its y is NOT unchanged: the same sub-step still adds the velocity at
its (in-grid) position, `1/2 + 1/10 = 3/5`. -/
theorem c6_reset_y_still_advected_counterexample :
    ((demoLattice (1/10) 0 (1/10) [5/2] [1/2]).move_particles).flow_particles_x = [1] ∧
    ((demoLattice (1/10) 0 (1/10) [5/2] [1/2]).move_particles).flow_particles_y = [3/5] ∧
      (3/5 : ℚ) ≠ 1/2 := by
  have h1 : floorU32 (5/2 : ℚ) = 2 := by norm_num [floorU32]; rfl
  have h2 : floorU32 (1/2 : ℚ) = 0 := by norm_num [floorU32]
  refine ⟨?_, ?_, by norm_num⟩ <;>
    norm_num [demoLattice, Lattice.move_particles, Lattice.moveParticle, h1, h2,
      Config.new, Config.update_viscosity]

/-- C6 as amended: when the inflow speed is positive and a tracer's pre-step
x exceeds `width - 2`, the advection sub-step sets its x to exactly 1; its y
is unaffected by the reset but still receives the normal advection increment
when the tracer's clamped floored position is in-grid.  When the inflow is
zero (or negative) or x is at most `width - 2`, no reset occurs: x ends at
its advected (or unchanged) value. -/
theorem c6_inlet_reset_amended (L : Lattice) (k : Nat) (px py : ℚ)
    (hx : L.flow_particles_x[k]? = some px)
    (hy : L.flow_particles_y[k]? = some py) :
    (0 < L.config.flow_speed ∧ ((L.config.width - 2 : Nat) : ℚ) < px →
      (L.move_particles).flow_particles_x[k]? = some 1 ∧
      (L.move_particles).flow_particles_y[k]? =
        some (if floorU32 px < L.config.width ∧ floorU32 py < L.config.height
          then py + L.uy (floorU32 py * L.config.width + floorU32 px) else py)) ∧
    (¬ (0 < L.config.flow_speed ∧ ((L.config.width - 2 : Nat) : ℚ) < px) →
      (L.move_particles).flow_particles_x[k]? =
        some (if floorU32 px < L.config.width ∧ floorU32 py < L.config.height
          then px + L.ux (floorU32 py * L.config.width + floorU32 px) else px)) := by
  obtain ⟨gx, gy⟩ := move_particles_get L k px py hx hy
  constructor
  · intro hr
    refine ⟨?_, ?_⟩
    · rw [gx]; simp only [Lattice.moveParticle]; rw [if_pos hr]
    · rw [gy]; simp only [Lattice.moveParticle]; rw [if_pos hr]
      by_cases hin : floorU32 px < L.config.width ∧ floorU32 py < L.config.height
      · rw [if_pos hin, if_pos hin]
      · rw [if_neg hin, if_neg hin]
  · intro hr
    rw [gx]; simp only [Lattice.moveParticle]; rw [if_neg hr]
    by_cases hin : floorU32 px < L.config.width ∧ floorU32 py < L.config.height
    · rw [if_pos hin, if_pos hin]
    · rw [if_neg hin, if_neg hin]

/-- Witness for the amended C6: the tracer at `(5/2, 1/2)` with inflow
`1/10` on a 4-wide lattice has its x reset to exactly 1. -/
theorem c6_inlet_reset_amended_witness :
    ((demoLattice (1/10) 0 (1/10) [5/2] [1/2]).move_particles).flow_particles_x[0]? =
      some 1 :=
  ((c6_inlet_reset_amended (demoLattice (1/10) 0 (1/10) [5/2] [1/2]) 0 (5/2) (1/2)
      rfl rfl).1
    (by norm_num [demoLattice, Config.new, Config.update_viscosity])).1

/-- Counterexample to C7 as stated: with viscosity `0.02 = 1/50` the code
computes `omega = 1 / (3 * 0.02 + 0.5) = 25/14 ≈ 1.7857143`, which is not
approximately `1.7241379` (the difference exceeds `1/100`; the claimed
numeral would require viscosity `0.08/3 ≈ 0.0267`). -/
theorem c7_omega_value_counterexample :
    (Config.new 10 10 1 0 DrawMode.Speed (1/50)).omega = 25 / 14 ∧
      ¬ |(25 / 14 : ℚ) - 1.7241379| ≤ 1 / 100 := by
  constructor
  · norm_num [Config.new, Config.update_viscosity]
  · rw [abs_of_pos (by norm_num : (0 : ℚ) < 25 / 14 - 1.7241379)]
    norm_num

/-- C7 as amended: construction and every later `set_viscosity` call set
`omega = 1 / (3 * viscosity + 0.5)`; for viscosity `0.02` this is `25/14 ≈
1.7857143` (not `1.7241379`); and immediately after construction every cell
(the barrier set is empty) has stored density 1 and stored velocity (0, 0).
-/
theorem c7_viscosity_omega_amended :
    (∀ (w h spf : Nat) (fs : ℚ) (dm : DrawMode) (v : ℚ),
        (Config.new w h spf fs dm v).omega = 1 / (3 * v + 0.5)) ∧
    (∀ (L : Lattice) (v : ℚ), (L.set_viscosity v).config.omega = 1 / (3 * v + 0.5)) ∧
    |(Config.new 10 10 1 0 DrawMode.Speed (1/50)).omega - 1.7857143| < 1 / 10 ^ 6 ∧
    (∀ (cfg : Config) (i : Nat), i < cfg.width * cfg.height →
      (Lattice.new cfg).density i = 1 ∧ (Lattice.new cfg).ux i = 0 ∧
        (Lattice.new cfg).uy i = 0) := by
  refine ⟨fun w h spf fs dm v => rfl, fun L v => rfl, ?_, ?_⟩
  · rw [show (Config.new 10 10 1 0 DrawMode.Speed (1/50)).omega = 25 / 14 from by
      norm_num [Config.new, Config.update_viscosity]]
    rw [abs_of_neg (by norm_num : (25 / 14 : ℚ) - 1.7857143 < 0)]
    norm_num
  · intro cfg i hi
    exact ⟨new_density cfg i hi, new_ux cfg i hi, new_uy cfg i hi⟩

/-- Witness for the amended C7: the concrete omega and the stored density of
one cell of a freshly constructed lattice. -/
theorem c7_viscosity_omega_amended_witness :
    (Config.new 10 10 1 0 DrawMode.Speed 0.02).omega = 1 / (3 * 0.02 + 0.5) ∧
      (Lattice.new smallConfig).density 5 = 1 :=
  ⟨c7_viscosity_omega_amended.1 10 10 1 0 DrawMode.Speed 0.02,
    (c7_viscosity_omega_amended.2.2.2 smallConfig 5
      (by norm_num [smallConfig, Config.new, Config.update_viscosity])).1⟩

/-- C8: with no barriers (the constructed lattice has none) and inflow speed
0, the total density summed over all cells is exactly conserved — in the
exact-rational model of the floating-point arithmetic — across any number of
`update()` calls from the freshly constructed state: every cell stays at the
rest equilibrium, so the sum stays `width * height`. -/
theorem c8_mass_conserved (cfg : Config) (hfs : cfg.flow_speed = 0)
    (hw : 2 ≤ cfg.width) (hh : 2 ≤ cfg.height) (n : Nat) :
    (Lattice.update^[n] (Lattice.new cfg)).totalDensity =
      (Lattice.new cfg).totalDensity := by
  have hInv : restInv cfg (Lattice.update^[n] (Lattice.new cfg)) := by
    induction n with
    | zero => simpa using restInv_new cfg
    | succ n ih =>
      rw [Function.iterate_succ_apply']
      exact restInv_update hfs ih
  rw [restInv_totalDensity hInv, restInv_totalDensity (restInv_new cfg)]

/-- Witness for C8: three updates of a 6×5 zero-inflow lattice conserve the
total density. -/
theorem c8_mass_conserved_witness :
    (Lattice.update^[3] (Lattice.new restConfig)).totalDensity =
      (Lattice.new restConfig).totalDensity :=
  c8_mass_conserved restConfig rfl
    (by norm_num [restConfig, Config.new, Config.update_viscosity])
    (by norm_num [restConfig, Config.new, Config.update_viscosity]) 3

end LBM
